import Mathlib

/-!
Verification development for the KDB+ MCP query gateway (`src/kdb_server.py`).

The program is a thin stateful façade over an external client library
(`kola`) and an invocation framework.  We embed it shallowly:

* the process-wide global `kdb_connection` becomes an explicit
  `ServerState` threaded through every operation;
* the environment (`KDB_HOST`, `KDB_PORT`) becomes an explicit `Env`;
* the outcomes of the external library calls (`kola.Q(...)` construction,
  the `.connect()` handshake, the `.sync(query)` submission) and the
  wall clock (`datetime.now().isoformat()`) are supplied by a `World`
  oracle, since they are nondeterministic from the program's view;
* each network-touching primitive records an `Event`, so that purity and
  ordering claims become statements about the emitted trace;
* a Python exception propagating out of a function is an `Except.error`
  carrying the exception's message (`str(e)`); a `try/except` block is a
  `match` that converts the error into the caught branch.
-/

/-- Opaque live-session object produced by `kola.Q(host, port)`. -/
structure Handle where
  id : Nat
deriving DecidableEq

/-- Python values as they appear after the `result.py()` conversion step:
only the shape and the type name matter to the envelope contract. -/
inductive PyVal where
  | pyInt (n : Int)
  | pyStr (s : String)
  | pyList (xs : List PyVal)
  | pyNone

/-- `str(type(py_result).__name__)` for the modelled values. -/
def PyVal.typeName : PyVal → String
  | .pyInt _ => "int"
  | .pyStr _ => "str"
  | .pyList _ => "list"
  | .pyNone => "NoneType"

/-- Outcomes of the external calls and the clock, fixed per call from the
program's point of view.  `qNew` is the outcome of `kola.Q(host, port)`,
`handshake` of `conn.connect()`, `syncResult` of `conn.sync(query)`
(already converted to a Python value); `now` is what
`datetime.now().isoformat()` returns. -/
structure World where
  qNew : Except String Handle
  handshake : Except String Unit
  syncResult : Except String PyVal
  now : String

/-- The process environment: values of `KDB_HOST` and `KDB_PORT`
(`none` = variable unset). -/
structure Env where
  kdb_host : Option String
  kdb_port : Option String
deriving DecidableEq

/-- The process-wide mutable state: the global `kdb_connection`. -/
structure ServerState where
  kdb_connection : Option Handle
deriving DecidableEq

/-- Network-touching primitives, recorded in order of execution. -/
inductive Event where
  | evConnect (host : String) (port : Int)
  | evHandshake
  | evSync (q : String)
deriving DecidableEq

/-- Characters stripped by Python's `str.strip()` with no argument
(the ASCII whitespace subset; Python also strips Unicode spaces, which
none of the properties below depend on). -/
def isPySpace (c : Char) : Bool :=
  c = ' ' || c = '\t' || c = '\n' || c = '\r' || c = '\x0b' || c = '\x0c'

/-- `s.strip()` on the character list. -/
def pyStripList (l : List Char) : List Char :=
  ((l.dropWhile isPySpace).reverse.dropWhile isPySpace).reverse

/-- Tail of a Python integer literal after its first digit: digits with
single underscores allowed between digits. -/
def digitTail : List Char → Bool
  | [] => true
  | '_' :: c :: rest => c.isDigit && digitTail rest
  | ['_'] => false
  | c :: rest => c.isDigit && digitTail rest

/-- A nonempty digit sequence with optional single internal underscores. -/
def isIntBody (l : List Char) : Bool :=
  match l with
  | [] => false
  | c :: rest => c.isDigit && digitTail rest

/-- Numeric value of a digit-and-underscore sequence. -/
def natOfDigits (l : List Char) : Nat :=
  l.foldl (fun acc c => if c = '_' then acc else acc * 10 + (c.toNat - 48)) 0

/-- Message of the `ValueError` raised by `int(s)` (Python additionally
quotes the offending text). -/
def intErrMsg (s : String) : String :=
  "invalid literal for int() with base 10: " ++ s

/-- Python's `int(s)` for a string `s`: strip whitespace, optional sign,
then a digit sequence; anything else raises `ValueError`. -/
def pyIntOfString (s : String) : Except String Int :=
  match pyStripList s.data with
  | '+' :: rest =>
      if isIntBody rest then .ok (Int.ofNat (natOfDigits rest)) else .error (intErrMsg s)
  | '-' :: rest =>
      if isIntBody rest then .ok (-(Int.ofNat (natOfDigits rest))) else .error (intErrMsg s)
  | l =>
      if isIntBody l then .ok (Int.ofNat (natOfDigits l)) else .error (intErrMsg s)

/-- `os.getenv('KDB_HOST', 'localhost')`. -/
def hostFromEnv (env : Env) : String :=
  env.kdb_host.getD "localhost"

/-- `int(os.getenv('KDB_PORT', 4000))`: the default is already an
integer, a set variable is parsed and may raise. -/
def portFromEnv (env : Env) : Except String Int :=
  match env.kdb_port with
  | none => .ok 4000
  | some s => pyIntOfString s

/-- The uniform Response Envelope (`result = none` models an absent
`result` key; `error = none` models an explicit `null`). -/
structure ResultPayload where
  data : PyVal
  type : String

structure Envelope where
  success : Bool
  error : Option String
  result : Option ResultPayload
  query : String
  timestamp : String

/-- The Status Record returned by `get_connection_status`. -/
structure StatusRecord where
  connected : Bool
  host : String
  port : Int
  timestamp : String
deriving DecidableEq

/-- The record returned by the syntax validation operation. -/
structure SyntaxResult where
  query : String
  valid : Bool
  warnings : List String
  timestamp : String
deriving DecidableEq

/-- `connect_to_kdb()`: read host and port (the `int` parse may raise,
inside this function's own `try`), construct `kola.Q(host, port)` and on
success assign it to the global; any exception is caught and `False`
returned, with the global left as it was. -/
def connect_to_kdb (env : Env) (w : World) (st : ServerState) :
    Bool × ServerState × List Event :=
  match portFromEnv env with
  | .error _ => (false, st, [])
  | .ok port =>
      match w.qNew with
      | .error _ => (false, st, [.evConnect (hostFromEnv env) port])
      | .ok h => (true, { kdb_connection := some h }, [.evConnect (hostFromEnv env) port])

/-- The raisable part of `execute_kdb_query` once a connection exists:
`kdb_connection.connect()` then `kdb_connection.sync(query)`. -/
def runHandshakeAndSync (w : World) (q : String) : Except String PyVal × List Event :=
  match w.handshake with
  | .error e => (.error e, [.evHandshake])
  | .ok _ =>
      match w.syncResult with
      | .error e => (.error e, [.evHandshake, .evSync q])
      | .ok v => (.ok v, [.evHandshake, .evSync q])

/-- Envelope returned when no handle exists and `connect_to_kdb` fails. -/
def connectFailEnvelope (q now : String) : Envelope :=
  { success := false, error := some "Cannot connect to KDB+", result := none,
    query := q, timestamp := now }

/-- Envelope built by the `except` clause of `execute_kdb_query`. -/
def queryFailEnvelope (q msg now : String) : Envelope :=
  { success := false, error := some msg, result := none,
    query := q, timestamp := now }

/-- Envelope built on a successful query. -/
def successEnvelope (v : PyVal) (q now : String) : Envelope :=
  { success := true, error := none,
    result := some { data := v, type := v.typeName },
    query := q, timestamp := now }

/-- `execute_kdb_query(query)`: if the global handle is unset, attempt
`connect_to_kdb()` once, returning the fixed connection-failure envelope
on failure; otherwise issue the handshake, submit the query, and wrap
result or exception message into an envelope.  The whole body sits in a
`try/except` that turns any exception into a failure envelope. -/
def execute_kdb_query (env : Env) (w : World) (st : ServerState) (q : String) :
    Envelope × ServerState × List Event :=
  match st.kdb_connection with
  | none =>
      match connect_to_kdb env w st with
      | (false, st1, ev1) => (connectFailEnvelope q w.now, st1, ev1)
      | (true, st1, ev1) =>
          match runHandshakeAndSync w q with
          | (.ok v, ev2) => (successEnvelope v q w.now, st1, ev1 ++ ev2)
          | (.error e, ev2) => (queryFailEnvelope q e w.now, st1, ev1 ++ ev2)
  | some _ =>
      match runHandshakeAndSync w q with
      | (.ok v, ev2) => (successEnvelope v q w.now, st, ev2)
      | (.error e, ev2) => (queryFailEnvelope q e w.now, st, ev2)

/-- `get_connection_status()`: reads the global handle and the
environment; the `int(os.getenv('KDB_PORT', 4000))` call is not guarded
by any `try`, so a malformed `KDB_PORT` makes the whole call raise. -/
def get_connection_status (env : Env) (w : World) (st : ServerState) :
    Except String StatusRecord × ServerState × List Event :=
  match portFromEnv env with
  | .error e => (.error e, st, [])
  | .ok p =>
      (.ok { connected := st.kdb_connection.isSome, host := hostFromEnv env,
             port := p, timestamp := w.now }, st, [])

/-- `validate_syntax(query)`: `valid = len(query.strip()) > 0`; a blank
query additionally gets the single warning `"Empty query"`. -/
def validate_syntax (w : World) (q : String) : SyntaxResult :=
  let stripped := pyStripList q.data
  let valid := decide (0 < stripped.length)
  if stripped.isEmpty then
    { query := q, valid := false, warnings := ["Empty query"], timestamp := w.now }
  else
    { query := q, valid := valid, warnings := [], timestamp := w.now }

/-- `get_help(topic)`: static two-way lookup, no error path. -/
def get_help (topic : String) : String :=
  if topic = "select" then
    "KDB+ SELECT: select [columns] from table [where conditions]"
  else
    "Available help topics: select"

/-- Tool `execute_query`: delegates to `execute_kdb_query`, whose body is
entirely wrapped in `try/except`, so it never raises. -/
def execute_query (env : Env) (w : World) (st : ServerState) (q : String) :
    Except String Envelope :=
  .ok (execute_kdb_query env w st q).1

/-- Tool `connection_status`: delegates to `get_connection_status`, which
can raise (no `try` around the port parse). -/
def connection_status (env : Env) (w : World) (st : ServerState) :
    Except String StatusRecord :=
  (get_connection_status env w st).1

/-- Tool `syntax_check`: delegates to the pure `validate_syntax`. -/
def syntax_check (w : World) (q : String) : Except String SyntaxResult :=
  .ok ( validate_syntax w q)

/-- Tool `help_info`: delegates to the pure `get_help`. -/
def help_info (topic : String) : Except String String :=
  .ok (get_help topic)

/-- Every occurrence of a sync submission in a trace is preceded
(somewhere earlier) by a handshake; the accumulator records whether a
handshake has been seen. -/
def handshakeBeforeSyncs : Bool → List Event → Bool
  | _, [] => true
  | _, Event.evHandshake :: rest => handshakeBeforeSyncs true rest
  | seen, Event.evSync _ :: rest => seen && handshakeBeforeSyncs seen rest
  | seen, _ :: rest => handshakeBeforeSyncs seen rest

/-! ### Concrete fixtures used by witnesses and counterexamples -/

def env0 : Env := { kdb_host := none, kdb_port := none }

def envBadPort : Env := { kdb_host := none, kdb_port := some "abc" }

def h0 : Handle := { id := 0 }

def st0 : ServerState := { kdb_connection := none }

def stConn : ServerState := { kdb_connection := some h0 }

def w0 : World :=
  { qNew := Except.error "Connection refused", handshake := Except.ok (),
    syncResult := Except.ok (PyVal.pyInt 2), now := "2026-01-01T00:00:00" }

def wOk : World :=
  { qNew := Except.ok h0, handshake := Except.ok (),
    syncResult := Except.ok (PyVal.pyInt 2), now := "2026-01-01T00:00:01" }

def wHsFail : World :=
  { qNew := Except.ok h0, handshake := Except.error "handshake failed",
    syncResult := Except.ok (PyVal.pyInt 2), now := "2026-01-01T00:00:02" }

def wSyncFail : World :=
  { qNew := Except.ok h0, handshake := Except.ok (),
    syncResult := Except.error "type", now := "2026-01-01T00:00:03" }

/-! ### Helper lemmas (shared; not tied to a single claim) -/

/-- Every envelope produced by `execute_kdb_query` is one of the three
builders, with the original query and the call-time timestamp. -/
theorem exec_shape (env : Env) (w : World) (st : ServerState) (q : String) :
    (∃ v, (execute_kdb_query env w st q).1 = successEnvelope v q w.now) ∨
    (execute_kdb_query env w st q).1 = connectFailEnvelope q w.now ∨
    (∃ m, (execute_kdb_query env w st q).1 = queryFailEnvelope q m w.now) := by
  unfold execute_kdb_query
  split
  · split
    · exact Or.inr (Or.inl rfl)
    · split
      · exact Or.inl ⟨_, rfl⟩
      · exact Or.inr (Or.inr ⟨_, rfl⟩)
  · split
    · exact Or.inl ⟨_, rfl⟩
    · exact Or.inr (Or.inr ⟨_, rfl⟩)

/-- `connect_to_kdb` reporting failure leaves the global handle exactly
as it was (the assignment is only reached on success). -/
theorem connect_to_kdb_false_state (env : Env) (w : World) (st : ServerState)
    (h : (connect_to_kdb env w st).1 = false) :
    (connect_to_kdb env w st).2.1 = st := by
  cases hp : portFromEnv env with
  | error e => simp [connect_to_kdb, hp]
  | ok p =>
      cases hq : w.qNew with
      | error e => simp [connect_to_kdb, hp, hq]
      | ok hh => simp [connect_to_kdb, hp, hq] at h

/-- `connect_to_kdb` reporting success has installed a fresh handle. -/
theorem connect_to_kdb_true_state (env : Env) (w : World) (st : ServerState)
    (h : (connect_to_kdb env w st).1 = true) :
    ∃ hh, (connect_to_kdb env w st).2.1 = { kdb_connection := some hh } := by
  cases hp : portFromEnv env with
  | error e => simp [connect_to_kdb, hp] at h
  | ok p =>
      cases hq : w.qNew with
      | error e => simp [connect_to_kdb, hp, hq] at h
      | ok hh => exact ⟨hh, by simp [connect_to_kdb, hp, hq]⟩

/-- State after `execute_kdb_query` when no handle existed: whatever
`connect_to_kdb` left behind. -/
theorem exec_state_none (env : Env) (w : World) (st : ServerState) (q : String)
    (h : st.kdb_connection = none) :
    (execute_kdb_query env w st q).2.1 = (connect_to_kdb env w st).2.1 := by
  rcases hc : connect_to_kdb env w st with ⟨b, st1, ev1⟩
  rcases hr : runHandshakeAndSync w q with ⟨r, ev2⟩
  cases b <;> cases r <;> simp [execute_kdb_query, h, hc, hr]

/-- State after `execute_kdb_query` when a handle existed: unchanged. -/
theorem exec_state_some (env : Env) (w : World) (st : ServerState) (q : String)
    (hh : Handle) (h : st.kdb_connection = some hh) :
    (execute_kdb_query env w st q).2.1 = st := by
  rcases hr : runHandshakeAndSync w q with ⟨r, ev2⟩
  cases r <;> simp [execute_kdb_query, h, hr]

/-- `get_connection_status` neither mutates the state nor emits a
network event. -/
theorem status_state_and_events (env : Env) (w : World) (st : ServerState) :
    (get_connection_status env w st).2.1 = st ∧
    (get_connection_status env w st).2.2 = [] := by
  cases hp : portFromEnv env <;> simp [get_connection_status, hp]

/-- When the port parses, `get_connection_status` returns the record
whose `connected` field is exactly handle presence. -/
theorem status_ok_of_port (env : Env) (w : World) (st : ServerState) (p : Int)
    (hp : portFromEnv env = .ok p) :
    (get_connection_status env w st).1 =
      .ok { connected := st.kdb_connection.isSome, host := hostFromEnv env,
            port := p, timestamp := w.now } := by
  simp [get_connection_status, hp]

/-- Any record actually returned by `get_connection_status` has
`connected` equal to handle presence. -/
theorem status_connected_eq (env : Env) (w : World) (st : ServerState)
    (r : StatusRecord) (h : (get_connection_status env w st).1 = .ok r) :
    r.connected = st.kdb_connection.isSome := by
  cases hp : portFromEnv env with
  | error e => simp [get_connection_status, hp] at h
  | ok p =>
      simp [get_connection_status, hp] at h
      simp [← h]

/-! ### Claim theorems -/

/-- C1: for every query string, if no Connection Handle exists and the
single `connect_to_kdb` attempt fails, `execute_kdb_query` returns the
envelope with `success = false`, error exactly `"Cannot connect to
KDB+"`, the original query, the call-time timestamp, and no result
payload. -/
theorem exec_connect_failure_envelope (env : Env) (w : World) (st : ServerState) (q : String)
    (hnone : st.kdb_connection = none)
    (hfail : (connect_to_kdb env w st).1 = false) :
    (execute_kdb_query env w st q).1 =
      { success := false, error := some "Cannot connect to KDB+", result := none,
        query := q, timestamp := w.now } := by
  rcases hc : connect_to_kdb env w st with ⟨b, st1, ev1⟩
  cases b
  · simp [execute_kdb_query, hnone, hc, connectFailEnvelope]
  · rw [hc] at hfail
    simp at hfail

theorem exec_connect_failure_envelope_witness :
    (execute_kdb_query env0 w0 st0 "1+1").1 =
      { success := false, error := some "Cannot connect to KDB+", result := none,
        query := "1+1", timestamp := "2026-01-01T00:00:00" } :=
  exec_connect_failure_envelope env0 w0 st0 "1+1" rfl rfl

/-- C2: every envelope produced by `execute_kdb_query` satisfies the
invariant: `success = true` implies `error = none`, and
`success = false` implies the `result` field is absent. -/
theorem exec_envelope_invariant (env : Env) (w : World) (st : ServerState) (q : String) :
    ((execute_kdb_query env w st q).1.success = true →
       (execute_kdb_query env w st q).1.error = none)
    ∧ ((execute_kdb_query env w st q).1.success = false →
       (execute_kdb_query env w st q).1.result = none) := by
  rcases exec_shape env w st q with ⟨v, hv⟩ | hcf | ⟨m, hm⟩
  · rw [hv]; simp [successEnvelope]
  · rw [hcf]; simp [connectFailEnvelope]
  · rw [hm]; simp [queryFailEnvelope]

theorem exec_envelope_invariant_witness :
    (execute_kdb_query env0 w0 st0 "1+1").1.result = none ∧
    (execute_kdb_query env0 wOk st0 "1+1").1.error = none :=
  ⟨(exec_envelope_invariant env0 w0 st0 "1+1").2 rfl,
   (exec_envelope_invariant env0 wOk st0 "1+1").1 rfl⟩

/-- C5: the `query` field of every envelope returned by
`execute_kdb_query` equals the exact input string — success envelope,
connection-failure envelope and query-failure envelope alike. -/
theorem exec_query_roundtrip (env : Env) (w : World) (st : ServerState) (q : String) :
    (execute_kdb_query env w st q).1.query = q := by
  rcases exec_shape env w st q with ⟨v, hv⟩ | hcf | ⟨m, hm⟩
  · rw [hv]; rfl
  · rw [hcf]; rfl
  · rw [hm]; rfl

/-- `true` exactly when the modelled Python call returned normally
(raised no exception). -/
def noRaise {α : Type} : Except String α → Bool
  | .ok _ => true
  | .error _ => false

/-- C4 counterexample: starting from a state where a handle is present,
a failing `connect_to_kdb` leaves the old handle installed — the handle
is not unset. -/
theorem connect_failure_keeps_handle_counterexample :
    (connect_to_kdb env0 w0 stConn).1 = false ∧
    ((connect_to_kdb env0 w0 stConn).2.1).kdb_connection = some h0 :=
  ⟨rfl, rfl⟩

/-- C4 (amended): whenever `connect_to_kdb` fails, the global handle is
left exactly as it was before the call — in particular it is absent
afterwards only when it was already absent. -/
theorem connect_failure_state_unchanged (env : Env) (w : World) (st : ServerState)
    (h : (connect_to_kdb env w st).1 = false) :
    (connect_to_kdb env w st).2.1 = st :=
  connect_to_kdb_false_state env w st h

theorem connect_failure_state_unchanged_witness :
    (connect_to_kdb env0 w0 st0).2.1 = st0 :=
  connect_failure_state_unchanged env0 w0 st0 rfl

/-- C3 counterexample: with `KDB_PORT` set to the string `"abc"`, the
`connection_status` tool does not return a status record: the
`ValueError` from the unguarded `int()` call propagates to the caller. -/
theorem connection_status_raises_counterexample :
    connection_status envBadPort w0 st0 =
      Except.error "invalid literal for int() with base 10: abc" := rfl

/-- C3 (amended): no tool-surface operation raises except
`connection_status`, which propagates the `ValueError` from parsing a
malformed `KDB_PORT`.  Whenever the configured port parses, all four
tools return normally; `execute_query` always returns an envelope, and
any exception raised by the handshake-and-sync body is converted into a
`success = false` envelope carrying the exception's message. -/
theorem tool_surface_exceptions (env : Env) (w : World) (st : ServerState)
    (q t : String) (p : Int) (hp : portFromEnv env = .ok p) :
    noRaise (execute_query env w st q) = true
    ∧ noRaise (connection_status env w st) = true
    ∧ noRaise (syntax_check w q) = true
    ∧ noRaise (help_info t) = true
    ∧ (∀ msg, st.kdb_connection.isSome = true →
        (runHandshakeAndSync w q).1 = .error msg →
        (execute_kdb_query env w st q).1.success = false ∧
        (execute_kdb_query env w st q).1.error = some msg) := by
  refine ⟨rfl, ?_, rfl, rfl, ?_⟩
  · simp [connection_status, get_connection_status, hp, noRaise]
  · intro msg hsome herr
    cases hst : st.kdb_connection with
    | none => rw [hst] at hsome; simp at hsome
    | some hh =>
        rcases hr : runHandshakeAndSync w q with ⟨r, ev2⟩
        rw [hr] at herr
        simp at herr
        subst herr
        simp [execute_kdb_query, hst, hr, queryFailEnvelope]

theorem tool_surface_exceptions_witness :
    noRaise (connection_status env0 wHsFail stConn) = true ∧
    (execute_kdb_query env0 wHsFail stConn "1+1").1.error = some "handshake failed" := by
  have h := tool_surface_exceptions env0 wHsFail stConn "1+1" "" 4000 rfl
  exact ⟨h.2.1, (h.2.2.2.2 "handshake failed" rfl rfl).2⟩

/-- Dropping a `p`-prefix does not change whether all elements
satisfy `p`. -/
theorem dropWhile_all_eq (p : Char → Bool) (l : List Char) :
    (l.dropWhile p).all p = l.all p := by
  induction l with
  | nil => rfl
  | cons c rest ih =>
      by_cases h : p c = true
      · simp [List.dropWhile_cons, h, ih]
      · simp [List.dropWhile_cons, h]

/-- `strip` yields the empty string exactly when every character is
whitespace. -/
theorem pyStripList_eq_nil_iff (l : List Char) :
    pyStripList l = [] ↔ l.all isPySpace = true := by
  rw [pyStripList, List.reverse_eq_nil_iff, List.dropWhile_eq_nil_iff]
  rw [← dropWhile_all_eq isPySpace l, List.all_eq_true]
  constructor
  · intro h x hx
    exact h x (List.mem_reverse.mpr hx)
  · intro h x hx
    exact h x (List.mem_reverse.mp hx)

/-- C6: `validate_syntax` marks a query invalid with the single warning
`"Empty query"` exactly when the query is empty or all whitespace, and
marks every other query valid with no warnings — no grammar checking. -/
theorem validate_syntax_rule (w : World) (q : String) :
    (q.data.all isPySpace = true →
        validate_syntax w q =
          { query := q, valid := false, warnings := ["Empty query"], timestamp := w.now })
    ∧ (q.data.all isPySpace = false →
        validate_syntax w q =
          { query := q, valid := true, warnings := [], timestamp := w.now }) := by
  constructor
  · intro h
    have hnil : pyStripList q.data = [] := (pyStripList_eq_nil_iff q.data).mpr h
    simp [ validate_syntax, hnil]
  · intro h
    have hnil : ¬ pyStripList q.data = [] := by
      intro hc
      rw [(pyStripList_eq_nil_iff q.data).mp hc] at h
      cases h
    have hlen : 0 < (pyStripList q.data).length := List.length_pos.mpr hnil
    simp [ validate_syntax, hnil, hlen]

theorem validate_syntax_rule_witness :
    ( validate_syntax w0 "   ").valid = false ∧
    ( validate_syntax w0 "   ").warnings = ["Empty query"] ∧
    ( validate_syntax w0 "1+1").valid = true := by
  have h1 := ( validate_syntax_rule w0 "   ").1 (by decide)
  have h2 := ( validate_syntax_rule w0 "1+1").2 (by decide)
  rw [h1, h2]
  exact ⟨rfl, rfl, rfl⟩

/-- C7: `get_connection_status` is a pure read: it leaves the state
unchanged, emits no network event, and any status record it returns has
`connected` equal exactly to whether a Connection Handle exists —
regardless of actual reachability, which the oracle never consults. -/
theorem status_pure_read (env : Env) (w : World) (st : ServerState) :
    (get_connection_status env w st).2.1 = st
    ∧ (get_connection_status env w st).2.2 = []
    ∧ (∀ r, (get_connection_status env w st).1 = Except.ok r →
        r.connected = st.kdb_connection.isSome) :=
  ⟨(status_state_and_events env w st).1, (status_state_and_events env w st).2,
   fun r h => status_connected_eq env w st r h⟩

def statusRecConn : StatusRecord :=
  { connected := true, host := "localhost", port := 4000,
    timestamp := "2026-01-01T00:00:00" }

theorem status_pure_read_witness :
    (get_connection_status env0 w0 stConn).2.2 = [] ∧
    statusRecConn.connected = stConn.kdb_connection.isSome := by
  have h := status_pure_read env0 w0 stConn
  exact ⟨h.2.1, h.2.2 statusRecConn rfl⟩

/-- C8: in every trace emitted by `execute_kdb_query`, each sync
submission is preceded by a handshake on the handle — the handshake is
re-issued before the submission even when a Connection Handle already
exists. -/
theorem exec_handshake_precedes_sync (env : Env) (w : World) (st : ServerState) (q : String) :
    handshakeBeforeSyncs false (execute_kdb_query env w st q).2.2 = true := by
  cases hst : st.kdb_connection <;>
    cases hp : portFromEnv env <;>
      cases hq : w.qNew <;>
        cases hh : w.handshake <;>
          cases hs : w.syncResult <;>
            simp [execute_kdb_query, connect_to_kdb, runHandshakeAndSync,
                  hst, hp, hq, hh, hs, handshakeBeforeSyncs]

/-- C9: `get_help` is total with no error path: the exact topic
`"select"` yields the fixed usage line, every other topic — the empty
string included — yields the fixed topics list. -/
theorem get_help_static (t : String) :
    get_help "select" = "KDB+ SELECT: select [columns] from table [where conditions]"
    ∧ (t ≠ "select" → get_help t = "Available help topics: select") := by
  refine ⟨rfl, fun h => ?_⟩
  simp [get_help, h]

theorem get_help_static_witness :
    get_help "select" = "KDB+ SELECT: select [columns] from table [where conditions]"
    ∧ get_help "" = "Available help topics: select" :=
  ⟨(get_help_static "").1, (get_help_static "").2 (by decide)⟩

/-- C10: handle presence is monotone.  `execute_kdb_query` never clears
a present handle, `connect_to_kdb` never clears a present handle, and
once the connect inside `execute_kdb_query` succeeds, the state after
the call still holds a handle, so a later `get_connection_status` read
reports `connected = true` — even when the submission itself failed. -/
theorem handle_presence_monotone (env : Env) (w w2 : World) (st : ServerState) (q : String) :
    (st.kdb_connection.isSome = true →
       ((execute_kdb_query env w st q).2.1).kdb_connection.isSome = true)
    ∧ (st.kdb_connection.isSome = true →
       ((connect_to_kdb env w st).2.1).kdb_connection.isSome = true)
    ∧ ((connect_to_kdb env w st).1 = true →
       ∀ r, (get_connection_status env w2 ((execute_kdb_query env w st q).2.1)).1 =
            Except.ok r → r.connected = true) := by
  have hmono : ∀ hh, st.kdb_connection = some hh →
      ((execute_kdb_query env w st q).2.1).kdb_connection.isSome = true := by
    intro hh hst
    rw [exec_state_some env w st q hh hst, hst]
    rfl
  refine ⟨?_, ?_, ?_⟩
  · intro hp
    cases hst : st.kdb_connection with
    | none => rw [hst] at hp; cases hp
    | some hh => exact hmono hh hst
  · intro hp
    cases hb : (connect_to_kdb env w st).1 with
    | false => rw [connect_to_kdb_false_state env w st hb]; exact hp
    | true =>
        obtain ⟨hh, hst1⟩ := connect_to_kdb_true_state env w st hb
        rw [hst1]
        rfl
  · intro hb r hr
    have hsome : ((execute_kdb_query env w st q).2.1).kdb_connection.isSome = true := by
      cases hst : st.kdb_connection with
      | none =>
          obtain ⟨hh, hst1⟩ := connect_to_kdb_true_state env w st hb
          rw [exec_state_none env w st q hst, hst1]
          rfl
      | some hh => exact hmono hh hst
    rw [status_connected_eq env w2 _ r hr, hsome]

def statusRecAfterFail : StatusRecord :=
  { connected := true, host := "localhost", port := 4000,
    timestamp := "2026-01-01T00:00:00" }

theorem handle_presence_monotone_witness :
    (execute_kdb_query env0 wSyncFail st0 "1+1").1.success = false ∧
    statusRecAfterFail.connected = true := by
  have h := handle_presence_monotone env0 wSyncFail w0 st0 "1+1"
  exact ⟨rfl, h.2.2 rfl statusRecAfterFail rfl⟩
